import Mathlib

/-!
Shallow embedding of `src/ts/modules/accessibility/focusBorder.ts` (Highcharts
accessibility focus-border module).

The module extends `SVGElement.prototype` with `addFocusBorder` /
`removeFocusBorder`, and `Chart.prototype` with `setFocusToElement`.  We model
the mutable state of an SVG element (its bounding box, translation, rotation,
node name, `x`/`y` attributes and its owned focus-border rect) as a structure,
and the two prototype methods as state transformers on it.  The chart is
modelled as a map from element ids to element states, a map from DOM-node ids
to DOM-node states, the `element` (DOM node) of each SVG element, and the
`focusElement` slot.  All geometry is over `ℚ` (JS numbers at the precision
the module uses are exact decimals).
-/

set_option autoImplicit false

/-- Bounding box as returned by `this.getBBox()`. -/
structure BBox where
  x : ℚ
  y : ℚ
  width : ℚ
  height : ℚ
deriving DecidableEq, Repr

/-- A JS number as it appears in the `borderRadius` style option: either a
finite value or `NaN` (the "non-numeric" number).  `NaN` is falsy in JS. -/
inductive JSNum where
  | num (q : ℚ)
  | nan
deriving DecidableEq, Repr

/-- JS truthiness of a `JSNum`: `0` and `NaN` are falsy. -/
def JSNum.truthy : JSNum → Bool
  | .num q => q ≠ 0
  | .nan => false

/-- The `Highcharts.CSSObject` argument of `addFocusBorder`, restricted to the
fields the function reads: `stroke`, `strokeWidth`, `borderRadius`.  Each field
may be `undefined` (`none`). -/
structure CSSObject where
  stroke : Option String
  strokeWidth : Option ℚ
  borderRadius : Option JSNum
deriving DecidableEq, Repr

/-- The focus-border rect created by `addFocusBorder` via
`this.renderer.rect(...).addClass(...).attr({zIndex}).add(parentGroup)` and the
optional `.attr({stroke, 'stroke-width'})` call.  `strokeAttr = none` means the
`stroke` attribute was never set (styled mode); `strokeAttr = some v` means it
was set to the JS value `v` (which may itself be `undefined`). -/
structure FocusBorderRect where
  x : ℚ
  y : ℚ
  width : ℚ
  height : ℚ
  r : ℤ
  cssClass : String
  zIndex : ℤ
  strokeAttr : Option (Option String)
  strokeWidthAttr : Option (Option ℚ)
deriving DecidableEq, Repr

/-- State of a `Highcharts.SVGElement` as read and written by the module:
`getBBox()`, `translateX` / `translateY` (possibly `undefined`), `rotation`
(possibly `undefined`), `element.nodeName`, the `x` / `y` attributes (the code
coerces them with unary `+`, so we keep them numeric), and the owned
`focusBorder` rect. -/
structure SVGElem where
  bbox : BBox
  translateX : Option ℚ
  translateY : Option ℚ
  rotation : Option ℚ
  nodeName : String
  attrX : ℚ
  attrY : ℚ
  focusBorder : Option FocusBorderRect
deriving DecidableEq, Repr

/-- JS truthiness of `this.rotation` (`!!this.rotation`): `undefined` and `0`
are falsy. -/
def SVGElem.isRotated (el : SVGElem) : Bool :=
  match el.rotation with
  | some r => r ≠ 0
  | none => false

/-- Effective `translateX` (`this.translateX ? this.translateX : 0`). -/
def SVGElem.txEff (el : SVGElem) : ℚ :=
  match el.translateX with
  | some t => t
  | none => 0

/-- Effective `translateY` (`this.translateY ? this.translateY : 0`).
Note a stored `0` and `undefined` both yield `0`, exactly as the ternary does. -/
def SVGElem.tyEff (el : SVGElem) : ℚ :=
  match el.translateY with
  | some t => t
  | none => 0

/-- `parseInt((v).toString(), 10)` for a finite JS number `v` written in plain
decimal notation: truncation toward zero.  `Int.tdiv` is T-division, and
`q.den > 0`, so `Int.tdiv q.num q.den` truncates `q` toward zero. -/
def ratTrunc (q : ℚ) : ℤ :=
  Int.tdiv q.num q.den

/-- The value `style && style.borderRadius || 0` (a finite number: `undefined`,
`0` and `NaN` all collapse to `0` via JS falsiness). -/
def borderRadiusValue (style : Option CSSObject) : ℚ :=
  match style with
  | none => 0
  | some s =>
    match s.borderRadius with
    | none => 0
    | some .nan => 0
    | some (.num q) => if q = 0 then 0 else q

/-- `parseInt((style && style.borderRadius || 0).toString(), 10)`. -/
def effBorderRadius (style : Option CSSObject) : ℤ :=
  ratTrunc (borderRadiusValue style)

/-- `SVGElement#removeFocusBorder`: if `this.focusBorder` exists, destroy it
and delete the reference; otherwise do nothing. -/
def removeFocusBorder (el : SVGElem) : SVGElem :=
  match el.focusBorder with
  | some _ => { el with focusBorder := none }
  | none => el

/-- `SVGElement#addFocusBorder(margin, style)`.  `sm` is
`this.renderer.styledMode`, `ff` is `H.isFirefox`.  `margin` and `style` are
`Option`s because JS callers may pass `undefined` (the code guards both with
`pick(margin, 3)` and `style && ...`). -/
def addFocusBorder (sm ff : Bool) (el : SVGElem) (margin : Option ℚ)
    (style : Option CSSObject) : SVGElem :=
  -- Allow updating by just adding new border
  let el := if el.focusBorder.isSome then removeFocusBorder el else el
  let bb := el.bbox
  let pad := margin.getD 3
  let bbx := bb.x + el.txEff
  let bby := bb.y + el.tyEff
  let borderPosX := bbx - pad
  let borderPosY := bby - pad
  -- For text elements, apply x and y offset, #11397.
  let borderPosX :=
    if el.nodeName = "text" then
      el.attrX - bb.width * (1 / 2) - pad +
        (if el.isRotated then bb.height * (68 / 1000) else 0)
    else borderPosX
  let borderPosY :=
    if el.nodeName = "text" then
      el.attrY - bb.height * (1 / 2) - pad +
        (if el.isRotated then 0
         else -bb.height * (if ff then 1 / 4 else 68 / 1000))
    else borderPosY
  let rect : FocusBorderRect :=
    { x := borderPosX
      y := borderPosY
      width := bb.width + 2 * pad
      height := bb.height + 2 * pad
      r := effBorderRadius style
      cssClass := "highcharts-focus-border"
      zIndex := 99
      strokeAttr := if sm then none else some (style.bind (·.stroke))
      strokeWidthAttr := if sm then none else some (style.bind (·.strokeWidth)) }
  { el with focusBorder := some rect }

/-- State of a DOM node as touched by `setFocusToElement`: whether it has a
`focus` method, how many `focusin` handlers are registered in its `hcEvents`,
how many times `.focus()` has been invoked on it, and its `style.outline`. -/
structure DOMNode where
  focusable : Bool
  focusinListeners : ℕ
  focusCalls : ℕ
  outline : Option String
deriving DecidableEq, Repr

/-- The resolved `focusBorder` options
(`chart.options.accessibility.keyboardNavigation.focusBorder`), restricted to
the fields the function reads. -/
structure FocusBorderOptions where
  enabled : Bool
  hideBrowserFocusOutline : Bool
  margin : Option ℚ
  styleColor : Option String
  styleLineWidth : Option ℚ
  styleBorderRadius : Option JSNum
deriving DecidableEq, Repr

/-- Chart state: SVG elements and DOM nodes keyed by ids, the DOM node
(`svgElement.element`, possibly absent) of each SVG element, and the chart's
`focusElement` slot. -/
structure Chart where
  elements : ℕ → SVGElem
  domNodes : ℕ → DOMNode
  elemDom : ℕ → Option ℕ
  focusElement : Option ℕ

/-- `focusElement || svgElement.element`: the DOM node that receives browser
focus. -/
def resolveBrowserFocusTarget (ch : Chart) (svgId : ℕ) (focusId : Option ℕ) :
    Option ℕ :=
  match focusId with
  | some d => some d
  | none => ch.elemDom svgId

/-- Effect of lines 149–168 of the source on the browser focus node: if it has
a `focus` method, add a no-op `focusin` listener when none is registered,
invoke `.focus()`, and hide the native outline when configured. -/
def focusNode (opts : FocusBorderOptions) (n : DOMNode) : DOMNode :=
  if n.focusable then
    let n1 :=
      if n.focusinListeners = 0 then
        { n with focusinListeners := n.focusinListeners + 1 }
      else n
    let n2 := { n1 with focusCalls := n1.focusCalls + 1 }
    if opts.hideBrowserFocusOutline then { n2 with outline := some "none" }
    else n2
  else n

/-- The "Set browser focus if possible" phase of `setFocusToElement`. -/
def applyBrowserFocus (opts : FocusBorderOptions) (ch : Chart) (svgId : ℕ)
    (focusId : Option ℕ) : Chart :=
  match resolveBrowserFocusTarget ch svgId focusId with
  | none => ch
  | some d =>
    { ch with
        domNodes := Function.update ch.domNodes d (focusNode opts (ch.domNodes d)) }

/-- "Remove old focus border": if the chart has a `focusElement`, call
`removeFocusBorder` on it. -/
def removePrevBorder (ch : Chart) : Chart :=
  match ch.focusElement with
  | some prev =>
    { ch with
        elements :=
          Function.update ch.elements prev (removeFocusBorder (ch.elements prev)) }
  | none => ch

/-- `Chart#setFocusToElement(svgElement, focusElement?)`.  `sm` is the
renderer's `styledMode`, `ff` is `H.isFirefox`; `opts` is the resolved
`focusBorder` options object. -/
def setFocusToElement (sm ff : Bool) (opts : FocusBorderOptions) (ch : Chart)
    (svgId : ℕ) (focusId : Option ℕ) : Chart :=
  let ch1 := applyBrowserFocus opts ch svgId focusId
  if opts.enabled then
    let ch2 := removePrevBorder ch1
    let style : CSSObject :=
      { stroke := opts.styleColor
        strokeWidth := opts.styleLineWidth
        borderRadius := opts.styleBorderRadius }
    let ch3 :=
      { ch2 with
          elements :=
            Function.update ch2.elements svgId
              (addFocusBorder sm ff (ch2.elements svgId) opts.margin (some style)) }
    { ch3 with focusElement := some svgId }
  else ch1

/-- A text SVG element used as concrete test data: bounding box 40×10 at the
origin, attributes `x = 100`, `y = 50`, not rotated. -/
def textElExample : SVGElem :=
  { bbox := { x := 0, y := 0, width := 40, height := 10 }
    translateX := none, translateY := none, rotation := none
    nodeName := "text", attrX := 100, attrY := 50, focusBorder := none }

/-- A non-text SVG element used as concrete test data: bounding box
(10, 20, 30, 5), translated by (5, 0). -/
def ntElExample : SVGElem :=
  { bbox := { x := 10, y := 20, width := 30, height := 5 }
    translateX := some 5, translateY := some 0, rotation := none
    nodeName := "rect", attrX := 0, attrY := 0, focusBorder := none }

/-- A style object with a fractional `borderRadius` used as concrete test
data. -/
def radiusStyleExample : CSSObject :=
  { stroke := some "blue", strokeWidth := some 2, borderRadius := some (.num (7 / 2)) }

/-- Focus-border options with `enabled = true` used as concrete test data. -/
def enabledOptsExample : FocusBorderOptions :=
  { enabled := true, hideBrowserFocusOutline := false, margin := some 3
    styleColor := some "blue", styleLineWidth := some 2
    styleBorderRadius := some (.num 3) }

/-- The same options with `enabled = false`. -/
def disabledOptsExample : FocusBorderOptions :=
  { enabledOptsExample with enabled := false }

/-- A focusable DOM node with no `focusin` listener, used as concrete test
data. -/
def domNodeExample : DOMNode :=
  { focusable := true, focusinListeners := 0, focusCalls := 0, outline := none }

/-- A chart in which every element id maps to `ntElExample`, every DOM-node id
to `domNodeExample`, every element has DOM node `0`, and nothing is focused. -/
def chartExample : Chart :=
  { elements := fun _ => ntElExample
    domNodes := fun _ => domNodeExample
    elemDom := fun _ => some 0
    focusElement := none }

/-- `chartExample` with one `focusin` listener already registered on every DOM
node. -/
def chartListenedExample : Chart :=
  { chartExample with
      domNodes := fun _ => { domNodeExample with focusinListeners := 1 } }

/-- `removeFocusBorder` always leaves the element without a border rect. -/
theorem removeFocusBorder_focusBorder (el : SVGElem) :
    (removeFocusBorder el).focusBorder = none := by
  cases hfb : el.focusBorder <;> simp [removeFocusBorder, hfb]

/-- The browser-focus phase does not touch the chart's SVG elements. -/
theorem applyBrowserFocus_elements (opts : FocusBorderOptions) (ch : Chart)
    (svgId : ℕ) (focusId : Option ℕ) :
    (applyBrowserFocus opts ch svgId focusId).elements = ch.elements := by
  unfold applyBrowserFocus
  cases resolveBrowserFocusTarget ch svgId focusId <;> rfl

/-- The browser-focus phase does not touch the chart's `focusElement` slot. -/
theorem applyBrowserFocus_focusElement (opts : FocusBorderOptions) (ch : Chart)
    (svgId : ℕ) (focusId : Option ℕ) :
    (applyBrowserFocus opts ch svgId focusId).focusElement = ch.focusElement := by
  unfold applyBrowserFocus
  cases resolveBrowserFocusTarget ch svgId focusId <;> rfl

/-- When the browser focus target resolves to node `d`, the browser-focus
phase rewrites exactly that node with `focusNode`. -/
theorem applyBrowserFocus_domNodes_target (opts : FocusBorderOptions) (ch : Chart)
    (svgId : ℕ) (focusId : Option ℕ) (d : ℕ)
    (ht : resolveBrowserFocusTarget ch svgId focusId = some d) :
    (applyBrowserFocus opts ch svgId focusId).domNodes d =
      focusNode opts (ch.domNodes d) := by
  unfold applyBrowserFocus
  rw [ht]
  simp

/-- Removing the previous chart border does not touch DOM nodes. -/
theorem removePrevBorder_domNodes (ch : Chart) :
    (removePrevBorder ch).domNodes = ch.domNodes := by
  unfold removePrevBorder
  cases ch.focusElement <;> rfl

/-- When the chart records `p` as focused, removing the previous border calls
`removeFocusBorder` on element `p` and nothing else. -/
theorem removePrevBorder_elements_of_some (ch : Chart) (p : ℕ)
    (h : ch.focusElement = some p) :
    (removePrevBorder ch).elements =
      Function.update ch.elements p (removeFocusBorder (ch.elements p)) := by
  unfold removePrevBorder
  rw [h]

/-- With the focus border enabled, `setFocusToElement` records its target as
the chart's focused element. -/
theorem setFocusToElement_enabled_focusElement (sm ff : Bool)
    (opts : FocusBorderOptions) (ch : Chart) (svgId : ℕ) (focusId : Option ℕ)
    (hen : opts.enabled = true) :
    (setFocusToElement sm ff opts ch svgId focusId).focusElement = some svgId := by
  unfold setFocusToElement
  rw [hen]
  simp

/-- With the focus border disabled, `setFocusToElement` is exactly the
browser-focus phase. -/
theorem setFocusToElement_disabled_eq (sm ff : Bool)
    (opts : FocusBorderOptions) (ch : Chart) (svgId : ℕ) (focusId : Option ℕ)
    (hdis : opts.enabled = false) :
    setFocusToElement sm ff opts ch svgId focusId =
      applyBrowserFocus opts ch svgId focusId := by
  unfold setFocusToElement
  rw [hdis]
  simp

/-- `setFocusToElement` changes DOM nodes only through the browser-focus
phase. -/
theorem setFocusToElement_domNodes (sm ff : Bool) (opts : FocusBorderOptions)
    (ch : Chart) (svgId : ℕ) (focusId : Option ℕ) :
    (setFocusToElement sm ff opts ch svgId focusId).domNodes =
      (applyBrowserFocus opts ch svgId focusId).domNodes := by
  unfold setFocusToElement
  cases hen : opts.enabled
  · simp
  · simp [removePrevBorder_domNodes]

/-- `focusNode` on a focusable node invokes `.focus()` exactly once. -/
theorem focusNode_focusCalls (opts : FocusBorderOptions) (n : DOMNode)
    (hf : n.focusable = true) :
    (focusNode opts n).focusCalls = n.focusCalls + 1 := by
  unfold focusNode
  rw [hf]
  by_cases h0 : n.focusinListeners = 0 <;>
    by_cases hh : opts.hideBrowserFocusOutline <;> simp [h0, hh]

/-- `focusNode` on a focusable node with no `focusin` listener registers
exactly one. -/
theorem focusNode_focusinListeners_zero (opts : FocusBorderOptions) (n : DOMNode)
    (hf : n.focusable = true) (h0 : n.focusinListeners = 0) :
    (focusNode opts n).focusinListeners = 1 := by
  unfold focusNode
  rw [hf]
  by_cases hh : opts.hideBrowserFocusOutline <;> simp [h0, hh]

/-- `focusNode` on a focusable node that already has a `focusin` listener
registers no further one. -/
theorem focusNode_focusinListeners_pos (opts : FocusBorderOptions) (n : DOMNode)
    (hf : n.focusable = true) (h0 : n.focusinListeners ≠ 0) :
    (focusNode opts n).focusinListeners = n.focusinListeners := by
  unfold focusNode
  rw [hf]
  by_cases hh : opts.hideBrowserFocusOutline <;> simp [h0, hh]

/-- With the focus border enabled, the elements after `setFocusToElement` are
the elements after the remove-previous-border step, with the target overwritten
by `addFocusBorder` under the options' margin and style. -/
theorem setFocusToElement_enabled_elements (sm ff : Bool)
    (opts : FocusBorderOptions) (ch : Chart) (svgId : ℕ) (focusId : Option ℕ)
    (hen : opts.enabled = true) :
    (setFocusToElement sm ff opts ch svgId focusId).elements =
      Function.update (removePrevBorder (applyBrowserFocus opts ch svgId focusId)).elements
        svgId
        (addFocusBorder sm ff
          ((removePrevBorder (applyBrowserFocus opts ch svgId focusId)).elements svgId)
          opts.margin
          (some { stroke := opts.styleColor, strokeWidth := opts.styleLineWidth
                  borderRadius := opts.styleBorderRadius })) := by
  unfold setFocusToElement
  rw [hen]
  simp

/-- C1: after `setFocusToElement(chart, A)` followed by
`setFocusToElement(chart, B)` with `A ≠ B` and focus-border options enabled,
element `A` owns no focus-border overlay, element `B` owns exactly one, `B` is
recorded as the chart's single active focus element, and (for any chart state)
at most one element is recorded as the chart's active focus target. -/
theorem setFocusToElement_single_active_border (sm ff : Bool)
    (opts : FocusBorderOptions) (ch : Chart) (A B : ℕ) (fA fB : Option ℕ)
    (hen : opts.enabled = true) (hne : A ≠ B) :
    ((setFocusToElement sm ff opts (setFocusToElement sm ff opts ch A fA) B fB).elements A).focusBorder = none ∧
    (∃ r, ((setFocusToElement sm ff opts (setFocusToElement sm ff opts ch A fA) B fB).elements B).focusBorder = some r) ∧
    (setFocusToElement sm ff opts (setFocusToElement sm ff opts ch A fA) B fB).focusElement = some B ∧
    (∀ (s : Chart) (i j : ℕ), s.focusElement = some i → s.focusElement = some j → i = j) := by
  have hfe1 : (applyBrowserFocus opts (setFocusToElement sm ff opts ch A fA) B fB).focusElement = some A := by
    rw [applyBrowserFocus_focusElement]
    exact setFocusToElement_enabled_focusElement sm ff opts ch A fA hen
  have helems := setFocusToElement_enabled_elements sm ff opts
    (setFocusToElement sm ff opts ch A fA) B fB hen
  have hrp := removePrevBorder_elements_of_some
    (applyBrowserFocus opts (setFocusToElement sm ff opts ch A fA) B fB) A hfe1
  refine ⟨?_, ?_, ?_, ?_⟩
  · rw [helems, Function.update_noteq hne, hrp, Function.update_same,
      removeFocusBorder_focusBorder]
  · rw [helems, Function.update_same]
    exact ⟨_, rfl⟩
  · exact setFocusToElement_enabled_focusElement sm ff opts _ B fB hen
  · intro s i j hi hj
    rw [hi] at hj
    exact Option.some.inj hj

/-- Witness for C1: concrete double focus assignment on `chartExample` with
targets `0` then `1`. -/
theorem setFocusToElement_single_active_border_witness :
    ((setFocusToElement false false enabledOptsExample
        (setFocusToElement false false enabledOptsExample chartExample 0 none) 1 none).elements 0).focusBorder = none ∧
    (∃ r, ((setFocusToElement false false enabledOptsExample
        (setFocusToElement false false enabledOptsExample chartExample 0 none) 1 none).elements 1).focusBorder = some r) ∧
    (setFocusToElement false false enabledOptsExample
        (setFocusToElement false false enabledOptsExample chartExample 0 none) 1 none).focusElement = some 1 := by
  have h := setFocusToElement_single_active_border false false enabledOptsExample
    chartExample 0 1 none none rfl (by decide)
  exact ⟨h.1, h.2.1, h.2.2.1⟩

/-- C2: for a text element (`nodeName = "text"`), `addFocusBorder` places the
border origin at `x − width·0.5 − margin + (rotated ? height·0.068 : 0)` and
`y − height·0.5 − margin + (rotated ? 0 : −height·(isFirefox ? 0.25 : 0.068))`,
where rotated means nonzero rotation. -/
theorem addFocusBorder_text_origin (sm ff : Bool) (el : SVGElem) (m : ℚ)
    (style : Option CSSObject) (htext : el.nodeName = "text") :
    ((addFocusBorder sm ff el (some m) style).focusBorder).map (fun r => (r.x, r.y)) =
      some
        (el.attrX - el.bbox.width * (1 / 2) - m +
           (if el.isRotated then el.bbox.height * (68 / 1000) else 0),
         el.attrY - el.bbox.height * (1 / 2) - m +
           (if el.isRotated then 0
            else -el.bbox.height * (if ff then 1 / 4 else 68 / 1000))) := by
  cases hfb : el.focusBorder <;>
    simp [addFocusBorder, removeFocusBorder, SVGElem.isRotated, htext, hfb]

/-- Witness for C2: a non-rotated text element with bounding box 40×10,
attributes `x = 100`, `y = 50` and margin 3 gets border origin
(77, 41.32) = (77, 1033/25) on a non-Firefox engine and
(77, 39.5) = (77, 79/2) on the Firefox engine. -/
theorem addFocusBorder_text_origin_witness :
    ((addFocusBorder false false textElExample (some 3) none).focusBorder).map
        (fun r => (r.x, r.y)) = some (77, 1033 / 25) ∧
    ((addFocusBorder false true textElExample (some 3) none).focusBorder).map
        (fun r => (r.x, r.y)) = some (77, 79 / 2) := by
  constructor
  · rw [addFocusBorder_text_origin false false textElExample 3 none rfl]
    norm_num [textElExample, SVGElem.isRotated]
  · rw [addFocusBorder_text_origin false true textElExample 3 none rfl]
    norm_num [textElExample, SVGElem.isRotated]

/-- C3: for a non-text element, `addFocusBorder` creates the overlay at origin
(bbox.x + translateX − margin, bbox.y + translateY − margin) with size
(width + 2·margin, height + 2·margin), the translation offsets defaulting to 0
and the margin to 3. -/
theorem addFocusBorder_nontext_geometry (sm ff : Bool) (el : SVGElem)
    (m : Option ℚ) (style : Option CSSObject) (hnt : el.nodeName ≠ "text") :
    ((addFocusBorder sm ff el m style).focusBorder).map
        (fun r => (r.x, r.y, r.width, r.height)) =
      some (el.bbox.x + el.txEff - m.getD 3, el.bbox.y + el.tyEff - m.getD 3,
            el.bbox.width + 2 * m.getD 3, el.bbox.height + 2 * m.getD 3) := by
  cases hfb : el.focusBorder <;>
    simp [addFocusBorder, removeFocusBorder, SVGElem.txEff, SVGElem.tyEff, hnt, hfb]

/-- Witness for C3: bounding box (10, 20, 30, 5) with `translateX = 5`,
`translateY = 0` and margin 3 yields origin (12, 17) and size (36, 11). -/
theorem addFocusBorder_nontext_geometry_witness :
    ((addFocusBorder false false ntElExample (some 3) none).focusBorder).map
        (fun r => (r.x, r.y, r.width, r.height)) = some (12, 17, 36, 11) := by
  rw [addFocusBorder_nontext_geometry false false ntElExample (some 3) none (by decide)]
  norm_num [ntElExample, SVGElem.txEff, SVGElem.tyEff]

/-- C4: calling `addFocusBorder` twice in succession with the same inputs
equals a single call (the existing overlay is removed before the new one is
added, so overlays never accumulate), and the element afterwards owns exactly
one overlay. -/
theorem addFocusBorder_idempotent (sm ff : Bool) (el : SVGElem) (m : Option ℚ)
    (style : Option CSSObject) :
    addFocusBorder sm ff (addFocusBorder sm ff el m style) m style =
      addFocusBorder sm ff el m style ∧
    ∃ r, (addFocusBorder sm ff el m style).focusBorder = some r := by
  refine ⟨?_, ⟨_, rfl⟩⟩
  cases hfb : el.focusBorder <;>
    simp [addFocusBorder, removeFocusBorder, SVGElem.txEff, SVGElem.tyEff,
      SVGElem.isRotated, hfb]

/-- C5: `removeFocusBorder` leaves the element owning no overlay, a second
consecutive remove is a no-op, and removing from an element that owns no
overlay changes no state. -/
theorem removeFocusBorder_clears (el : SVGElem) :
    (removeFocusBorder el).focusBorder = none ∧
    removeFocusBorder (removeFocusBorder el) = removeFocusBorder el ∧
    (el.focusBorder = none → removeFocusBorder el = el) := by
  cases hfb : el.focusBorder <;>
    simp [removeFocusBorder, hfb]

/-- Witness for C5: removing from the border-free `ntElExample` leaves no
overlay and changes nothing. -/
theorem removeFocusBorder_clears_witness :
    (removeFocusBorder ntElExample).focusBorder = none ∧
    removeFocusBorder ntElExample = ntElExample :=
  ⟨(removeFocusBorder_clears ntElExample).1,
   (removeFocusBorder_clears ntElExample).2.2 rfl⟩

/-- C6: with `focusOptions.enabled = false`, `setFocusToElement` changes no
element (no overlay is created), records no active focus element, but still
invokes the native focus operation on the resolved DOM focus target whenever
that target exists and is focusable. -/
theorem setFocusToElement_disabled_still_focuses (sm ff : Bool)
    (opts : FocusBorderOptions) (ch : Chart) (svgId : ℕ) (focusId : Option ℕ)
    (hdis : opts.enabled = false) :
    (∀ i, (setFocusToElement sm ff opts ch svgId focusId).elements i = ch.elements i) ∧
    (setFocusToElement sm ff opts ch svgId focusId).focusElement = ch.focusElement ∧
    (∀ d, resolveBrowserFocusTarget ch svgId focusId = some d →
      (ch.domNodes d).focusable = true →
      ((setFocusToElement sm ff opts ch svgId focusId).domNodes d).focusCalls =
        (ch.domNodes d).focusCalls + 1) := by
  rw [setFocusToElement_disabled_eq sm ff opts ch svgId focusId hdis]
  refine ⟨fun i => by rw [applyBrowserFocus_elements],
    applyBrowserFocus_focusElement opts ch svgId focusId, fun d ht hf => ?_⟩
  rw [applyBrowserFocus_domNodes_target opts ch svgId focusId d ht]
  exact focusNode_focusCalls opts (ch.domNodes d) hf

/-- Witness for C6: a disabled-options call on `chartExample` leaves element 0
and the focus slot unchanged and bumps the focus count of DOM node 0. -/
theorem setFocusToElement_disabled_still_focuses_witness :
    (setFocusToElement false false disabledOptsExample chartExample 0 none).elements 0 =
      chartExample.elements 0 ∧
    (setFocusToElement false false disabledOptsExample chartExample 0 none).focusElement =
      chartExample.focusElement ∧
    ((setFocusToElement false false disabledOptsExample chartExample 0 none).domNodes 0).focusCalls =
      (chartExample.domNodes 0).focusCalls + 1 := by
  have h := setFocusToElement_disabled_still_focuses false false disabledOptsExample
    chartExample 0 none rfl
  exact ⟨h.1 0, h.2.1, h.2.2 0 rfl rfl⟩

/-- C7: on a focusable DOM focus target, `setFocusToElement` registers exactly
one no-op `focusin` listener when the target has none, and registers no
additional listener when one is already present. -/
theorem setFocusToElement_focusin_listener (sm ff : Bool)
    (opts : FocusBorderOptions) (ch : Chart) (svgId : ℕ) (focusId : Option ℕ)
    (d : ℕ) (ht : resolveBrowserFocusTarget ch svgId focusId = some d)
    (hf : (ch.domNodes d).focusable = true) :
    ((ch.domNodes d).focusinListeners = 0 →
      ((setFocusToElement sm ff opts ch svgId focusId).domNodes d).focusinListeners = 1) ∧
    ((ch.domNodes d).focusinListeners ≠ 0 →
      ((setFocusToElement sm ff opts ch svgId focusId).domNodes d).focusinListeners =
        (ch.domNodes d).focusinListeners) := by
  have hd : (setFocusToElement sm ff opts ch svgId focusId).domNodes d =
      focusNode opts (ch.domNodes d) := by
    rw [setFocusToElement_domNodes, applyBrowserFocus_domNodes_target opts ch svgId focusId d ht]
  constructor
  · intro h0
    rw [hd]
    exact focusNode_focusinListeners_zero opts (ch.domNodes d) hf h0
  · intro h0
    rw [hd]
    exact focusNode_focusinListeners_pos opts (ch.domNodes d) hf h0

/-- Witness for C7: on `chartExample` (no listener) the count becomes 1, and on
`chartListenedExample` (one listener) it stays 1. -/
theorem setFocusToElement_focusin_listener_witness :
    ((setFocusToElement false false enabledOptsExample chartExample 0 none).domNodes 0).focusinListeners = 1 ∧
    ((setFocusToElement false false enabledOptsExample chartListenedExample 0 none).domNodes 0).focusinListeners = 1 := by
  constructor
  · exact (setFocusToElement_focusin_listener false false enabledOptsExample
      chartExample 0 none 0 rfl rfl).1 rfl
  · exact ((setFocusToElement_focusin_listener false false enabledOptsExample
      chartListenedExample 0 none 0 rfl rfl).2 (by decide)).trans rfl

/-- C8: in styled mode the overlay created by `addFocusBorder` receives no
stroke or stroke-width attributes regardless of the style argument; otherwise
both attributes are set from `style.stroke` / `style.strokeWidth`. -/
theorem addFocusBorder_styledMode_stroke (ff : Bool) (el : SVGElem)
    (m : Option ℚ) (style : Option CSSObject) :
    ((addFocusBorder true ff el m style).focusBorder).map
        (fun r => (r.strokeAttr, r.strokeWidthAttr)) = some (none, none) ∧
    ((addFocusBorder false ff el m style).focusBorder).map
        (fun r => (r.strokeAttr, r.strokeWidthAttr)) =
      some (some (style.bind (·.stroke)), some (style.bind (·.strokeWidth))) := by
  constructor <;>
    cases hfb : el.focusBorder <;>
      simp [addFocusBorder, removeFocusBorder, hfb]

/-- C9: the overlay's corner radius is `style.borderRadius` parsed as an
integer (truncation), and it is 0 whenever the style is absent, the
`borderRadius` field is absent, or the field is non-numeric (`NaN`). -/
theorem addFocusBorder_borderRadius (sm ff : Bool) (el : SVGElem) (m : Option ℚ)
    (style : Option CSSObject) :
    ((addFocusBorder sm ff el m style).focusBorder).map (fun r => r.r) =
      some (effBorderRadius style) ∧
    (style = none → effBorderRadius style = 0) ∧
    (∀ s, style = some s → s.borderRadius = none → effBorderRadius style = 0) ∧
    (∀ s, style = some s → s.borderRadius = some .nan → effBorderRadius style = 0) ∧
    (∀ s q, style = some s → s.borderRadius = some (.num q) →
      effBorderRadius style = ratTrunc q) := by
  refine ⟨?_, ?_, ?_, ?_, ?_⟩
  · cases hfb : el.focusBorder <;>
      simp [addFocusBorder, removeFocusBorder, hfb]
  · rintro rfl; rfl
  · rintro s rfl hbr; simp [effBorderRadius, borderRadiusValue, hbr, ratTrunc]
  · rintro s rfl hbr; simp [effBorderRadius, borderRadiusValue, hbr, ratTrunc]
  · rintro s q rfl hbr
    by_cases hq : q = 0 <;>
      simp [effBorderRadius, borderRadiusValue, hbr, hq, ratTrunc]

/-- Witness for C9: a style with `borderRadius = 3.5` yields corner radius 3,
and an absent style yields 0. -/
theorem addFocusBorder_borderRadius_witness :
    ((addFocusBorder false false ntElExample (some 3) (some radiusStyleExample)).focusBorder).map
        (fun r => r.r) = some 3 ∧
    effBorderRadius none = 0 := by
  refine ⟨?_, (addFocusBorder_borderRadius false false ntElExample (some 3) none).2.1 rfl⟩
  rw [(addFocusBorder_borderRadius false false ntElExample (some 3)
    (some radiusStyleExample)).1]
  norm_num [effBorderRadius, borderRadiusValue, ratTrunc, radiusStyleExample]
  decide

/-- C10: with `focusOptions.enabled = false`, `setFocusToElement` leaves the
chart's recorded focus element unchanged and every element's overlay
unchanged, so a border drawn earlier remains owned by its element. -/
theorem setFocusToElement_disabled_preserves_focus_state (sm ff : Bool)
    (opts : FocusBorderOptions) (ch : Chart) (svgId : ℕ) (focusId : Option ℕ)
    (hdis : opts.enabled = false) :
    (setFocusToElement sm ff opts ch svgId focusId).focusElement = ch.focusElement ∧
    ∀ i, ((setFocusToElement sm ff opts ch svgId focusId).elements i).focusBorder =
      (ch.elements i).focusBorder := by
  rw [setFocusToElement_disabled_eq sm ff opts ch svgId focusId hdis]
  exact ⟨applyBrowserFocus_focusElement opts ch svgId focusId,
    fun i => by rw [applyBrowserFocus_elements]⟩

/-- Witness for C10: an enabled call focusing element 0, then a disabled call
targeting element 1, leaves the focus slot and element 0's border exactly as
after the first call. -/
theorem setFocusToElement_disabled_preserves_focus_state_witness :
    (setFocusToElement false false disabledOptsExample
        (setFocusToElement false false enabledOptsExample chartExample 0 none) 1 none).focusElement =
      (setFocusToElement false false enabledOptsExample chartExample 0 none).focusElement ∧
    ((setFocusToElement false false disabledOptsExample
        (setFocusToElement false false enabledOptsExample chartExample 0 none) 1 none).elements 0).focusBorder =
      ((setFocusToElement false false enabledOptsExample chartExample 0 none).elements 0).focusBorder := by
  have h := setFocusToElement_disabled_preserves_focus_state false false disabledOptsExample
    (setFocusToElement false false enabledOptsExample chartExample 0 none) 1 none rfl
  exact ⟨h.1, h.2 0⟩
